import Mathlib

/-!
Verification development for the Ai-classroom repository.

The relevant source is shallowly embedded:
* `src/llm.py`  — `AIService.evaluate_answer` (the evaluation normalizer) and
  `AIService.get_simple_suggestions`;
* `src/database.py` — the persistence gateway operations over an explicit
  list-based store state;
* `src/app.py` — the student session question-reconciliation steps
  (the automatic poll at the top of `student_view` and the Refresh-button path).

Python JSON values are an inductive type; JSON numbers are modelled as
rationals (Python floats/ints, no NaN — `json.loads` on ordinary payloads),
and machine text is `String`.  Fallible surrounding stages (the upstream AI
call, `json.loads`) are modelled by their outcome: a dedicated input type
records whether the call raised, the text failed to parse, or parsing
produced a JSON value.
-/

namespace AiClassroom

/-- JSON values as produced by Python `json.loads`: objects are key/value
lists (duplicate keys: the last occurrence wins, as in `json.loads`). -/
inductive Json where
  | null
  | bool (b : Bool)
  | num (q : ℚ)
  | str (s : String)
  | arr (l : List Json)
  | obj (l : List (String × Json))

/-- Key lookup in a parsed JSON object.  `json.loads` keeps the last binding
of a duplicated key, so the tail is consulted first. -/
def objLookup : List (String × Json) → String → Option Json
  | [], _ => none
  | (k, v) :: t, key =>
    match objLookup t key with
    | some v2 => some v2
    | none => if k = key then some v else none

/-- Python truthiness of a JSON value (`if s:`): `None`, `False`, `0`, `""`,
`[]` and `{}` are falsy. -/
def pyTruthy : Json → Bool
  | .null => false
  | .bool b => b
  | .num q => !(q == 0)
  | .str s => !s.isEmpty
  | .arr l => !l.isEmpty
  | .obj l => !l.isEmpty

mutual
/-- Python `repr` of a JSON value.  String-quote/escape choices and numeric
formatting are abstracted (a rational prints as `num` or `num/den`); the
claims never depend on the exact rendering of non-string values. -/
def pyRepr : Json → String
  | .null => "None"
  | .bool true => "True"
  | .bool false => "False"
  | .num q => toString q
  | .str s => "\x27" ++ s ++ "\x27"
  | .arr l => "[" ++ String.intercalate ", " (pyReprList l) ++ "]"
  | .obj l => "\x7b" ++ String.intercalate ", " (pyReprKVs l) ++ "\x7d"

/-- `repr` of the elements of a JSON array. -/
def pyReprList : List Json → List String
  | [] => []
  | v :: t => pyRepr v :: pyReprList t

/-- `repr` of the entries of a JSON object. -/
def pyReprKVs : List (String × Json) → List String
  | [] => []
  | (k, v) :: t => ("\x27" ++ k ++ "\x27: " ++ pyRepr v) :: pyReprKVs t
end

/-- Python `str()` of a JSON value: the identity on strings, `repr`
otherwise (these agree for every non-string type involved). -/
def pyStr : Json → String
  | .str s => s
  | v => pyRepr v

/-- Characters stripped by Python `str.strip()` (the ASCII whitespace set;
exotic Unicode whitespace is immaterial to every string in the source). -/
def isPySpace (c : Char) : Bool :=
  c == ' ' || c == '\t' || c == '\n' || c == '\r' || c == '\x0b' || c == '\x0c'

/-- Python `str.strip()`: drop leading and trailing whitespace. -/
def pyStrip (s : String) : String :=
  ⟨((s.data.dropWhile isPySpace).reverse.dropWhile isPySpace).reverse⟩

/-- Python `str.lower()` (ASCII case folding; every denylist word is ASCII). -/
def pyLower (s : String) : String :=
  ⟨s.data.map Char.toLower⟩

/-- Whether `n` occurs as a contiguous run inside `h` (Python `n in h`). -/
def charsContains (n : List Char) : List Char → Bool
  | [] => n.isEmpty
  | c :: t => n.isPrefixOf (c :: t) || charsContains n t

/-- Python substring test `needle in hay`. -/
def strContainsSub (hay needle : String) : Bool :=
  charsContains needle.data hay.data

/-- The suspicious-character denylist of `evaluate_answer`
(`['，', '。', '学', '生', '《', '》', '请', '你']`, llm.py line 304). -/
def suspiciousChars : List Char := ['，', '。', '学', '生', '《', '》', '请', '你']

/-- The denylisted meta-instruction words of `evaluate_answer`
(`['script', 'refresh', 'student', 'click']`, llm.py line 306). -/
def denyWords : List String := ["script", "refresh", "student", "click"]

/-- `any(char in text for char in [...])` (llm.py line 304). -/
def isSuspicious (text : String) : Bool :=
  suspiciousChars.any (fun c => text.data.contains c)

/-- `any(word in text.lower() for word in [...])` (llm.py line 306). -/
def hasDenyWord (text : String) : Bool :=
  denyWords.any (fun w => strContainsSub (pyLower text) w)

/-- The suggestion-cleaning loop of `evaluate_answer` (llm.py lines 290-309):
keep only strings whose stripped text is non-empty and passes both denylists;
the kept value is the stripped text. -/
def cleanSuggestions : List Json → List String
  | [] => []
  | .str raw :: t =>
    let text := pyStrip raw
    if text.isEmpty then cleanSuggestions t
    else if isSuspicious text then cleanSuggestions t
    else if hasDenyWord text then cleanSuggestions t
    else text :: cleanSuggestions t
  | _ :: t => cleanSuggestions t

/-- One pass of the default-padding `while` body (llm.py lines 329-335 and
432-440): append the first default not already present, if any. -/
def padStep (ds l : List String) : List String :=
  match ds.find? (fun d => !(l.contains d)) with
  | some d => l ++ [d]
  | none => l

/-- The padding `while len < 3` loop.  Each iteration appends at most one
default; three iterations of fuel suffice because the loop starts from a
list of length at most 3 (when no default is missing and the length is
still short the Python loop would spin, which is proved unreachable). -/
def padLoop (ds : List String) : Nat → List String → List String
  | 0, l => l
  | n + 1, l => if 3 ≤ l.length then l else padLoop ds n (padStep ds l)

/-- The default suggestions used inside `evaluate_answer`'s normalization
(llm.py lines 283-287, 313-317 and 323-327 — the same three strings). -/
def evalDefaultSuggestions : List String :=
  ["Focus on addressing the main points of the question",
   "Add more specific details and examples",
   "Improve the overall structure of your answer"]

/-- The full suggestions branch of `evaluate_answer` for a parsed list
(llm.py lines 289-335): clean, fall back to the defaults when nothing
survives, truncate to 3, then pad back up to 3. -/
def llmFilterSuggestions (l : List Json) : List String :=
  padLoop evalDefaultSuggestions 3
    ((if (cleanSuggestions l).isEmpty then evalDefaultSuggestions else cleanSuggestions l).take 3)

/-- `evaluate_answer` normalized score (llm.py lines 271-275): numbers are
clamped to [0,1] (`bool` is an `int` in Python, so `float(True) = 1.0`);
anything else defaults to 0.5. -/
def normScore (o : List (String × Json)) : ℚ :=
  match objLookup o "score" with
  | some (.num q) => max 0 (min 1 q)
  | some (.bool b) => max 0 (min 1 (if b then 1 else 0))
  | _ => 1 / 2

/-- `evaluate_answer` feedback handling (llm.py lines 278-279): a present
string field is passed through verbatim, anything else is replaced. -/
def normFeedback (o : List (String × Json)) : String :=
  match objLookup o "feedback" with
  | some (.str s) => s
  | _ => "The answer could be improved for clarity and relevance."

/-- `evaluate_answer` suggestions handling (llm.py lines 282-335): a missing
or non-list field becomes the three defaults; a list runs the filter
pipeline. -/
def normSuggestions (o : List (String × Json)) : List String :=
  match objLookup o "suggestions" with
  | some (.arr l) => llmFilterSuggestions l
  | _ => evalDefaultSuggestions

/-- The normalized evaluation record
`{score, feedback, suggestions}`. -/
structure Evaluation where
  score : ℚ
  feedback : String
  suggestions : List String
deriving DecidableEq

/-- Outcome of the upstream AI call and JSON extraction in
`evaluate_answer`: the call raised, no JSON could be parsed out of the raw
text (both the fence/chunk extraction attempts failed), or `json.loads`
produced a value.  Every raw response text lands in exactly one case. -/
inductive AIResponse where
  | exc
  | parseFail
  | parsed (v : Json)

/-- The default evaluation returned from the outer `except` handler of
`evaluate_answer` (llm.py lines 341-353). -/
def excEvaluation : Evaluation :=
  { score := 1 / 2
    feedback := "We encountered a problem evaluating your answer."
    suggestions :=
      ["Ensure your answer addresses the question directly",
       "Include specific examples and details",
       "Check your answer\x27s organization and clarity"] }

/-- The default evaluation returned when no JSON chunk parses
(llm.py lines 256-267). -/
def parseFailEvaluation : Evaluation :=
  { score := 1 / 2
    feedback := "Your answer was evaluated, but we couldn\x27t generate detailed feedback."
    suggestions :=
      ["Address the key points in the question",
       "Provide specific examples to support your answer",
       "Structure your response with clear organization"] }

/-- `AIService.evaluate_answer` normalization (llm.py lines 177-353).  A
parsed non-object value raises `TypeError` at the membership test or the
item assignment `evaluation['score'] = 0.5`, which the outer
`except Exception` turns into the exception default. -/
def evaluate_answer : AIResponse → Evaluation
  | .exc => excEvaluation
  | .parseFail => parseFailEvaluation
  | .parsed (.obj o) =>
    { score := normScore o, feedback := normFeedback o, suggestions := normSuggestions o }
  | .parsed _ => excEvaluation

/-- The default suggestions of `get_simple_suggestions`
(llm.py lines 425-429 and 447-451 — the same three strings). -/
def simpleDefaultSuggestions : List String :=
  ["Focus on addressing the main question more directly.",
   "Include specific examples to support your key points.",
   "Structure your answer with a clear introduction and conclusion."]

/-- First character is a digit (`line[0].isdigit()`). -/
def firstIsDigit (s : String) : Bool :=
  match s.data with
  | c :: _ => c.isDigit
  | [] => false

/-- Second character is one of `['.', ')', ' ']` (`line[1] in [...]`). -/
def secondIsSep (s : String) : Bool :=
  match s.data with
  | _ :: c :: _ => c == '.' || c == ')' || c == ' '
  | _ => false

/-- Python slice `line[2:]`. -/
def strDrop2 (s : String) : String := ⟨s.data.drop 2⟩

/-- The line-parsing loop of `get_simple_suggestions` (llm.py lines 402-419):
strip each line, skip blanks, strip a `1. `-style numbering prefix, keep
everything else verbatim — no content filtering of any kind. -/
def parseSimpleLines : List String → List String
  | [] => []
  | line :: rest =>
    let l := pyStrip line
    if l.isEmpty then parseSimpleLines rest
    else if 2 < l.length && firstIsDigit l && secondIsSep l then
      pyStrip (strDrop2 l) :: parseSimpleLines rest
    else
      l :: parseSimpleLines rest

/-- Outcome of the upstream AI call in `get_simple_suggestions`. -/
inductive SimpleInput where
  | exc
  | text (content : String)

/-- Split a character list at every newline (the pieces, in order). -/
def splitOnNl : List Char → List (List Char)
  | [] => [[]]
  | c :: t =>
    match splitOnNl t with
    | [] => [[]]
    | h :: r => if c = '\n' then [] :: h :: r else (c :: h) :: r

/-- Python `raw_text.split('\n')`. -/
def pySplitLines (s : String) : List String :=
  (splitOnNl s.data).map String.mk

/-- `AIService.get_simple_suggestions` (llm.py lines 355-451): parse the
numbered lines, truncate to 3, pad with defaults, return the first 3. -/
def get_simple_suggestions : SimpleInput → List String
  | .exc => simpleDefaultSuggestions
  | .text content =>
    (padLoop simpleDefaultSuggestions 3
      ((parseSimpleLines (pySplitLines (pyStrip content))).take 3)).take 3

/-- The storage-side re-validation comprehension
`[str(s) for s in suggestions if s]` of `get_answers_for_question`
(database.py line 386). -/
def dbFilterSuggestions : List Json → List String
  | [] => []
  | s :: t => if pyTruthy s then pyStr s :: dbFilterSuggestions t else dbFilterSuggestions t

/-- A suggestion that survives `evaluate_answer`'s cleaning loop: non-empty
and free of both the suspicious characters and the denylisted words. -/
def cleanPred (s : String) : Bool :=
  !s.isEmpty && !(isSuspicious s) && !(hasDenyWord s)

/-- Whether the AI response parsed to a JSON object whose `feedback` field
is literally the empty string (the only way `evaluate_answer` can emit an
empty feedback). -/
def feedbackFieldEmpty : AIResponse → Bool
  | .parsed (.obj o) =>
    match objLookup o "feedback" with
    | some (.str s) => s.isEmpty
    | _ => false
  | _ => false

/-- A suggestions list made of exactly the values on which both suggestion
filters act trivially: strings that are their own strip, non-empty, and
free of both denylists. -/
def cleanStrList : List Json → Bool
  | [] => true
  | .str s :: t =>
    (pyStrip s == s) && !s.isEmpty && !(isSuspicious s) && !(hasDenyWord s) && cleanStrList t
  | _ :: _ => false

/-!
## The persistence gateway (src/database.py)

The sqlite store is an explicit state: one list per table, plus a clock
supplying strictly increasing timestamps for `datetime.now()`.  Every
operation takes a `DBErr` mode saying whether and where the storage layer
raises `sqlite3.Error` during this call; the returned `Except Unit _` is
`.error ()` exactly when that exception propagates to the caller uncaught.

Every operation has the same shape in the source: it first runs
`conn = sqlite3.connect(self.db_path)` and `cursor = conn.cursor()`
*outside* any `try` (database.py lines 168-169, 193-194, 236-237, 265-266,
279, 313-314, 331-332, 358-359), and only then — except for
`get_classroom_students`, which has no `try` at all — enters a
`try`/`except` around the statements and commit.  So a connect-time
storage error propagates uncaught from every operation, while a
statement-time error is caught by all of them but `get_classroom_students`.
-/

/-- Where, if anywhere, the storage layer raises `sqlite3.Error` during one
gateway call: nowhere (`ok`); at `sqlite3.connect`/`cursor()`, which every
operation runs before entering its `try` (`connectFail`); or at a statement
or commit executed inside the `try` body (`queryFail`), before anything is
committed. -/
inductive DBErr where
  | ok
  | connectFail
  | queryFail
deriving DecidableEq

/-- A row of the `classrooms` table. -/
structure Classroom where
  class_code : String
  created_at : Nat
  teacher_id : String
  question : String
  status : String
deriving DecidableEq

/-- A row of the `students` table. -/
structure StudentRow where
  student_id : String
  class_code : String
  joined_at : Nat
deriving DecidableEq

/-- The `suggestions` text column of an `answers` row, modelled by what
`json.loads` does to it: SQL `NULL` or the empty string (falsy under
`if row[4]:`), unparseable text, or a parsed JSON value. -/
inductive StoredSugg where
  | nullOrEmpty
  | parseFail
  | parsed (v : Json)

/-- A row of the `answers` table. -/
structure AnswerRow where
  student_id : String
  class_code : String
  question : String
  answer : String
  score : ℚ
  feedback : String
  suggestions : StoredSugg
  submitted_at : Nat

/-- The sqlite database state. -/
structure DBState where
  classrooms : List Classroom
  students : List StudentRow
  answers : List AnswerRow
  clock : Nat

/-- `SELECT COUNT(*) FROM classrooms WHERE class_code = ?`. -/
def countClass (st : DBState) (code : String) : Nat :=
  (st.classrooms.filter (fun r => r.class_code == code)).length

/-- `Database.create_classroom` (database.py lines 166-189): reject an
existing code, otherwise insert with status `active`.  The connection is
opened outside the `try` (lines 168-169), so a connect-time error
propagates; a `sqlite3.Error` inside the `try` is caught and returns
`False`. -/
def create_classroom (st : DBState) (e : DBErr) (class_code teacher_id question : String) :
    Except Unit (Bool × DBState) :=
  if e = .connectFail then .error ()
  else if e = .queryFail then .ok (false, st)
  else if 0 < countClass st class_code then .ok (false, st)
  else .ok (true,
    { st with
      classrooms := st.classrooms ++ [⟨class_code, st.clock, teacher_id, question, "active"⟩]
      clock := st.clock + 1 })

/-- `Database.add_student` (database.py lines 191-232): reject when the
code does not exist or the classroom is not `active`; the insert's
`IntegrityError` (the `student_id UNIQUE` constraint) is caught and returns
`False`.  `class_code` is `UNIQUE`, so the status fetched by
`fetchone()` is that of the first (only) matching row.  The connection is
opened outside the `try` (lines 193-194), so a connect-time error
propagates. -/
def add_student (st : DBState) (e : DBErr) (student_id class_code : String) :
    Except Unit (Bool × DBState) :=
  if e = .connectFail then .error ()
  else if e = .queryFail then .ok (false, st)
  else if countClass st class_code = 0 then .ok (false, st)
  else
    match st.classrooms.find? (fun r => r.class_code == class_code) with
    | none => .ok (false, st)
    | some room =>
      if room.status ≠ "active" then .ok (false, st)
      else if st.students.any (fun s => s.student_id == student_id) then .ok (false, st)
      else .ok (true,
        { st with
          students := st.students ++ [⟨student_id, class_code, st.clock⟩]
          clock := st.clock + 1 })

/-- `Database.save_answer` (database.py lines 234-261): unconditionally
append the row.  The `suggestions` column receives
`json.dumps(evaluation['suggestions'])`, which `json.loads` parses back to
the same list of strings, so the stored column is the parsed list.  (This
connection never enables `PRAGMA foreign_keys`, so no reference check
applies.)  The connection is opened outside the `try` (lines 236-237), so a
connect-time error propagates; a `sqlite3.Error` inside the `try` is caught
and returns `False`. -/
def save_answer (st : DBState) (e : DBErr) (student_id class_code question answer : String)
    (evaluation : Evaluation) : Except Unit (Bool × DBState) :=
  if e = .connectFail then .error ()
  else if e = .queryFail then .ok (false, st)
  else .ok (true,
    { st with
      answers := st.answers ++
        [⟨student_id, class_code, question, answer, evaluation.score, evaluation.feedback,
          .parsed (.arr (evaluation.suggestions.map Json.str)), st.clock⟩]
      clock := st.clock + 1 })

/-- `Database.update_classroom_question` (database.py lines 311-327):
`UPDATE classrooms SET question = ? WHERE class_code = ?`; returns `True`
even when no row matches.  The connection is opened outside the `try`
(lines 313-314), so a connect-time error propagates; a `sqlite3.Error`
inside the `try` is caught and returns `False`. -/
def update_classroom_question (st : DBState) (e : DBErr) (class_code question : String) :
    Except Unit (Bool × DBState) :=
  if e = .connectFail then .error ()
  else if e = .queryFail then .ok (false, st)
  else .ok (true,
    { st with
      classrooms := st.classrooms.map
        (fun r => if r.class_code == class_code then { r with question := question } else r) })

/-- `Database.get_classroom_info` (database.py lines 329-354): the first
matching row, or `None`.  The connection is opened outside the `try`
(lines 331-332), so a connect-time error propagates; a `sqlite3.Error`
inside the `try` is caught and returns `None`. -/
def get_classroom_info (st : DBState) (e : DBErr) (class_code : String) :
    Except Unit (Option Classroom) :=
  if e = .connectFail then .error ()
  else if e = .queryFail then .ok none
  else .ok (st.classrooms.find? (fun r => r.class_code == class_code))

/-- A `{"id": ..., "joined_at": ...}` entry returned by
`get_classroom_students`. -/
structure StudentView where
  id : String
  joined_at : Nat
deriving DecidableEq

/-- `Database.get_classroom_students` (database.py lines 263-275): a plain
`SELECT` with **no** `try`/`except` — a storage-layer error, whether at
connect time or at statement time, propagates to the caller. -/
def get_classroom_students (st : DBState) (e : DBErr) (class_code : String) :
    Except Unit (List StudentView) :=
  if e = .connectFail then .error ()
  else if e = .queryFail then .error ()
  else .ok ((st.students.filter (fun s => s.class_code == class_code)).map
    (fun s => ⟨s.student_id, s.joined_at⟩))

/-- The per-answer dictionary returned by `get_answers_for_question`. -/
structure AnswerView where
  student_id : String
  answer : String
  score : ℚ
  feedback : String
  suggestions : List String
  submitted_at : Nat
deriving DecidableEq

/-- The suggestions-column processing of `get_answers_for_question`
(database.py lines 374-394): falsy column → `[]`; parse failure → `[]`;
parsed non-list → `[]`; parsed list → the re-validation comprehension. -/
def processSugg : StoredSugg → List String
  | .nullOrEmpty => []
  | .parseFail => []
  | .parsed (.arr l) => dbFilterSuggestions l
  | .parsed _ => []

/-- Insert into a list sorted by `submitted_at` descending. -/
def insertDesc (a : AnswerRow) : List AnswerRow → List AnswerRow
  | [] => [a]
  | b :: t => if b.submitted_at ≤ a.submitted_at then a :: b :: t else b :: insertDesc a t

/-- `ORDER BY submitted_at DESC`. -/
def sortDesc : List AnswerRow → List AnswerRow
  | [] => []
  | a :: t => insertDesc a (sortDesc t)

/-- Insert into a list sorted by `submitted_at` ascending. -/
def insertAsc (a : AnswerRow) : List AnswerRow → List AnswerRow
  | [] => [a]
  | b :: t => if a.submitted_at ≤ b.submitted_at then a :: b :: t else b :: insertAsc a t

/-- `ORDER BY submitted_at` (ascending). -/
def sortAsc : List AnswerRow → List AnswerRow
  | [] => []
  | a :: t => insertAsc a (sortAsc t)

/-- The view built for each joined row of `get_answers_for_question`. -/
def answerView (a : AnswerRow) : AnswerView :=
  ⟨a.student_id, a.answer, a.score, a.feedback, processSugg a.suggestions, a.submitted_at⟩

/-- `Database.get_answers_for_question` (database.py lines 356-410): the
rows of `answers` matching the classroom and question, inner-joined with
`students` on `student_id` (that column is `UNIQUE`, so the join is an
existence filter), newest first, suggestions re-validated.  The connection
is opened outside the `try` (lines 358-359), so a connect-time error
propagates; a `sqlite3.Error` inside the `try` is caught and returns
`[]`. -/
def get_answers_for_question (st : DBState) (e : DBErr) (class_code question : String) :
    Except Unit (List AnswerView) :=
  if e = .connectFail then .error ()
  else if e = .queryFail then .ok []
  else .ok (((sortDesc
    ((st.answers.filter (fun a => a.class_code == class_code && a.question == question)).filter
      (fun a => st.students.any (fun s => s.student_id == a.student_id)))).map answerView))

/-- A row of the export `DataFrame` of `get_classroom_data`; the
`suggestions` column is exported raw (no re-validation). -/
structure ExportRow where
  student_id : String
  question : String
  answer : String
  score : ℚ
  feedback : String
  suggestions : StoredSugg
  submitted_at : Nat

/-- `Database.get_classroom_data` (database.py lines 277-297): answers
joined with students for one classroom, ordered by submission time.  The
connection is opened outside the `try` (line 279), so a connect-time error
propagates; any `Exception` inside the `try` is caught and an empty
`DataFrame` is returned. -/
def get_classroom_data (st : DBState) (e : DBErr) (class_code : String) :
    Except Unit (List ExportRow) :=
  if e = .connectFail then .error ()
  else if e = .queryFail then .ok []
  else .ok (((sortAsc
    ((st.answers.filter (fun a => a.class_code == class_code)).filter
      (fun a => st.students.any (fun s => s.student_id == a.student_id)))).map
    (fun a => ⟨a.student_id, a.question, a.answer, a.score, a.feedback, a.suggestions,
      a.submitted_at⟩)))

/-!
## The student session reconciliation steps (src/app.py)
-/

/-- The per-student cached session fields touched by the question
reconciliation (app.py lines 396-425 initialize `current_question := None`,
`answer_submitted := False`, `evaluation_result := None`, the video fields
`None`/`False`). -/
structure SessionState where
  current_question : Option String
  answer_submitted : Bool
  evaluation_result : Option Evaluation
  video_url : Option String
  video_request_id : Option String
  generating_video : Bool
  show_video_form : Bool
deriving DecidableEq

/-- The automatic question check at the top of the joined-student branch of
`student_view` (app.py lines 612-620): when `get_classroom_info` returned a
row and its question differs by value from the cached one, adopt it and
reset `answer_submitted` and the four video fields.  `evaluation_result`
is **not** touched on this path. -/
def pollQuestionCheck (s : SessionState) (db_info : Option Classroom) : SessionState :=
  match db_info with
  | none => s
  | some info =>
    if some info.question ≠ s.current_question then
      { s with
        current_question := some info.question
        answer_submitted := false
        video_url := none
        video_request_id := none
        generating_video := false
        show_video_form := false }
    else s

/-- The Refresh-button path of `student_view` (app.py lines 625-641): the
guard additionally requires a truthy question (`db_info.get('question')`),
and this path also clears `evaluation_result`. -/
def refreshQuestionCheck (s : SessionState) (db_info : Option Classroom) : SessionState :=
  match db_info with
  | none => s
  | some info =>
    if info.question.isEmpty then s
    else if some info.question ≠ s.current_question then
      { s with
        current_question := some info.question
        answer_submitted := false
        evaluation_result := none
        video_url := none
        video_request_id := none
        generating_video := false
        show_video_form := false }
    else s

/-!
## Helper lemmas
-/

theorem okNeConnect : ¬ ((DBErr.ok : DBErr) = .connectFail) := by decide

theorem okNeQuery : ¬ ((DBErr.ok : DBErr) = .queryFail) := by decide

theorem three_mem_le_length {α : Type} [DecidableEq α] {a b c : α} {l : List α}
    (ha : a ∈ l) (hb : b ∈ l) (hc : c ∈ l)
    (hab : a ≠ b) (hac : a ≠ c) (hbc : b ≠ c) : 3 ≤ l.length := by
  have hsub : ({a, b, c} : Finset α) ⊆ l.toFinset := by
    intro x hx
    simp only [Finset.mem_insert, Finset.mem_singleton] at hx
    rcases hx with h | h | h <;> subst h <;> simpa [List.mem_toFinset]
  have hcard : ({a, b, c} : Finset α).card = 3 := by
    rw [Finset.card_insert_of_not_mem (by simp [hab, hac]),
      Finset.card_insert_of_not_mem (by simp [hbc]), Finset.card_singleton]
  calc (3 : ℕ) = ({a, b, c} : Finset α).card := hcard.symm
    _ ≤ l.toFinset.card := Finset.card_le_card hsub
    _ ≤ l.length := l.toFinset_card_le

theorem padStep_length_of_lt (ds : List String) {d1 d2 d3 : String} (hds : ds = [d1, d2, d3])
    (h12 : d1 ≠ d2) (h13 : d1 ≠ d3)
    (h23 : d2 ≠ d3) (l : List String) (h : l.length < 3) :
    (padStep ds l).length = l.length + 1 := by
  subst hds
  unfold padStep
  cases hfind : List.find? (fun d => !(l.contains d)) [d1, d2, d3] with
  | some d => simp
  | none =>
    exfalso
    have hall := List.find?_eq_none.mp hfind
    have hmem : ∀ d : String, d ∈ ([d1, d2, d3] : List String) → d ∈ l := by
      intro d hd
      have hnot := hall d hd
      have hcont : l.contains d = true := by
        cases hc : l.contains d with
        | true => rfl
        | false => rw [hc] at hnot; exact absurd rfl hnot
      simpa only [List.elem_eq_mem, decide_eq_true_eq] using hcont
    have h3 := three_mem_le_length (hmem d1 (by simp)) (hmem d2 (by simp))
      (hmem d3 (by simp)) h12 h13 h23
    omega

theorem padStep_mem {ds l : List String} {s : String} (h : s ∈ padStep ds l) :
    s ∈ l ∨ s ∈ ds := by
  unfold padStep at h
  cases hfind : ds.find? (fun d => !(l.contains d)) with
  | some d =>
    rw [hfind] at h
    rcases List.mem_append.mp h with h | h
    · exact .inl h
    · simp only [List.mem_singleton] at h
      subst h
      exact .inr (List.mem_of_find?_eq_some hfind)
  | none =>
    rw [hfind] at h
    exact .inl h

theorem padLoop_mem {ds : List String} : ∀ {n : Nat} {l : List String} {s : String},
    s ∈ padLoop ds n l → s ∈ l ∨ s ∈ ds := by
  intro n
  induction n with
  | zero => intro l s h; exact .inl h
  | succ n ih =>
    intro l s h
    simp only [padLoop] at h
    by_cases h3 : 3 ≤ l.length
    · rw [if_pos h3] at h; exact .inl h
    · rw [if_neg h3] at h
      rcases ih h with h | h
      · exact padStep_mem h
      · exact .inr h

theorem padLoop_length_three (ds : List String) {d1 d2 d3 : String} (hds : ds = [d1, d2, d3])
    (h12 : d1 ≠ d2) (h13 : d1 ≠ d3)
    (h23 : d2 ≠ d3) : ∀ (n : Nat) (l : List String), 3 ≤ l.length + n → l.length ≤ 3 →
    (padLoop ds n l).length = 3 := by
  intro n
  induction n with
  | zero =>
    intro l h1 h2
    simp only [padLoop]
    omega
  | succ n ih =>
    intro l h1 h2
    simp only [padLoop]
    by_cases h3 : 3 ≤ l.length
    · rw [if_pos h3]; omega
    · rw [if_neg h3]
      have hlen := padStep_length_of_lt ds hds h12 h13 h23 l (by omega)
      exact ih (padStep ds l) (by omega) (by omega)

theorem mem_cleanSuggestions : ∀ {l : List Json} {s : String}, s ∈ cleanSuggestions l →
    cleanPred s = true := by
  intro l
  induction l with
  | nil => intro s h; simp [cleanSuggestions] at h
  | cons x t ih =>
    intro s h
    cases x with
    | str raw =>
      simp only [cleanSuggestions] at h
      by_cases h1 : (pyStrip raw).isEmpty = true
      · rw [if_pos h1] at h; exact ih h
      · rw [if_neg h1] at h
        by_cases h2 : isSuspicious (pyStrip raw) = true
        · rw [if_pos h2] at h; exact ih h
        · rw [if_neg h2] at h
          by_cases h3 : hasDenyWord (pyStrip raw) = true
          · rw [if_pos h3] at h; exact ih h
          · rw [if_neg h3] at h
            rcases List.mem_cons.mp h with h | h
            · subst h
              simp only [Bool.not_eq_true] at h1 h2 h3
              simp [cleanPred, h1, h2, h3]
            · exact ih h
    | null => exact ih (by simpa [cleanSuggestions] using h)
    | bool b => exact ih (by simpa [cleanSuggestions] using h)
    | num q => exact ih (by simpa [cleanSuggestions] using h)
    | arr l2 => exact ih (by simpa [cleanSuggestions] using h)
    | obj l2 => exact ih (by simpa [cleanSuggestions] using h)

theorem dbFilterSuggestions_eq (l : List Json) :
    dbFilterSuggestions l = (l.filter pyTruthy).map pyStr := by
  induction l with
  | nil => rfl
  | cons x t ih =>
    by_cases hx : pyTruthy x = true
    · simp [dbFilterSuggestions, List.filter_cons, hx, ih]
    · simp [dbFilterSuggestions, List.filter_cons, hx, ih]

theorem dbFilter_map_str (l : List String) (h : l.all (fun s => !s.isEmpty) = true) :
    dbFilterSuggestions (l.map Json.str) = l := by
  induction l with
  | nil => rfl
  | cons x t ih =>
    simp only [List.all_cons, Bool.and_eq_true] at h
    have hx : x.isEmpty = false := by
      rcases h with ⟨h1, _⟩
      simpa using h1
    simp [dbFilterSuggestions, pyTruthy, pyStr, hx, ih h.2]

theorem mem_insertDesc {a b : AnswerRow} {l : List AnswerRow} :
    a ∈ insertDesc b l ↔ a = b ∨ a ∈ l := by
  induction l with
  | nil => simp [insertDesc]
  | cons c t ih =>
    simp only [insertDesc]
    by_cases h : c.submitted_at ≤ b.submitted_at
    · simp only [if_pos h, List.mem_cons]
    · simp only [if_neg h, List.mem_cons, ih]
      tauto

theorem mem_sortDesc {a : AnswerRow} {l : List AnswerRow} : a ∈ sortDesc l ↔ a ∈ l := by
  induction l with
  | nil => simp [sortDesc]
  | cons b t ih =>
    simp only [sortDesc, mem_insertDesc, ih, List.mem_cons]

theorem evalDefaults_good : evalDefaultSuggestions.all cleanPred = true := by decide

theorem llmFilter_length (l : List Json) : (llmFilterSuggestions l).length = 3 := by
  unfold llmFilterSuggestions
  refine padLoop_length_three evalDefaultSuggestions rfl (by decide) (by decide) (by decide)
    3 _ (by omega) ?_
  rw [List.length_take]
  exact min_le_left _ _

theorem llmFilter_mem {l : List Json} {s : String} (h : s ∈ llmFilterSuggestions l) :
    s ∈ cleanSuggestions l ∨ s ∈ evalDefaultSuggestions := by
  unfold llmFilterSuggestions at h
  rcases padLoop_mem h with h | h
  · have h2 := List.take_subset 3 _ h
    by_cases hc : (cleanSuggestions l).isEmpty = true
    · rw [if_pos hc] at h2
      exact .inr h2
    · rw [if_neg hc] at h2
      exact .inl h2
  · exact .inr h

theorem normSuggestions_length (o : List (String × Json)) :
    (normSuggestions o).length = 3 := by
  unfold normSuggestions
  cases h : objLookup o "suggestions" with
  | none => rfl
  | some w =>
    cases w with
    | arr l => exact llmFilter_length l
    | null => rfl
    | bool b => rfl
    | num q => rfl
    | str s => rfl
    | obj o2 => rfl

theorem normSuggestions_all (o : List (String × Json)) :
    (normSuggestions o).all cleanPred = true := by
  unfold normSuggestions
  cases h : objLookup o "suggestions" with
  | none => exact evalDefaults_good
  | some w =>
    cases w with
    | arr l =>
      rw [List.all_eq_true]
      intro s hs
      rcases llmFilter_mem hs with h2 | h2
      · exact mem_cleanSuggestions h2
      · exact List.all_eq_true.mp evalDefaults_good s h2
    | null => exact evalDefaults_good
    | bool b => exact evalDefaults_good
    | num q => exact evalDefaults_good
    | str s => exact evalDefaults_good
    | obj o2 => exact evalDefaults_good

theorem excEvaluation_good : excEvaluation.suggestions.all cleanPred = true := by decide

theorem parseFailEvaluation_good : parseFailEvaluation.suggestions.all cleanPred = true := by
  decide

theorem evaluate_answer_suggestions_good (r : AIResponse) :
    (evaluate_answer r).suggestions.length = 3 ∧
    (evaluate_answer r).suggestions.all cleanPred = true := by
  cases r with
  | exc => exact ⟨rfl, excEvaluation_good⟩
  | parseFail => exact ⟨rfl, parseFailEvaluation_good⟩
  | parsed v =>
    cases v with
    | obj o => exact ⟨normSuggestions_length o, normSuggestions_all o⟩
    | null => exact ⟨rfl, excEvaluation_good⟩
    | bool b => exact ⟨rfl, excEvaluation_good⟩
    | num q => exact ⟨rfl, excEvaluation_good⟩
    | str s => exact ⟨rfl, excEvaluation_good⟩
    | arr l => exact ⟨rfl, excEvaluation_good⟩

theorem normScore_bounds (o : List (String × Json)) :
    0 ≤ normScore o ∧ normScore o ≤ 1 := by
  unfold normScore
  cases h : objLookup o "score" with
  | none => norm_num
  | some w =>
    cases w with
    | num q =>
      constructor
      · exact le_max_left 0 _
      · exact max_le (by norm_num) (min_le_left 1 q)
    | bool b => cases b <;> norm_num
    | null => norm_num
    | str s => norm_num
    | arr l => norm_num
    | obj o2 => norm_num

theorem evaluate_answer_score_bounds (r : AIResponse) :
    0 ≤ (evaluate_answer r).score ∧ (evaluate_answer r).score ≤ 1 := by
  cases r with
  | exc => norm_num [evaluate_answer, excEvaluation]
  | parseFail => norm_num [evaluate_answer, parseFailEvaluation]
  | parsed v =>
    cases v with
    | obj o => exact normScore_bounds o
    | null => norm_num [evaluate_answer, excEvaluation]
    | bool b => norm_num [evaluate_answer, excEvaluation]
    | num q => norm_num [evaluate_answer, excEvaluation]
    | str s => norm_num [evaluate_answer, excEvaluation]
    | arr l => norm_num [evaluate_answer, excEvaluation]

theorem evaluate_answer_feedback (r : AIResponse) :
    (evaluate_answer r).feedback.isEmpty = feedbackFieldEmpty r := by
  cases r with
  | exc => rfl
  | parseFail => rfl
  | parsed v =>
    cases v with
    | obj o =>
      show (normFeedback o).isEmpty = feedbackFieldEmpty (.parsed (.obj o))
      have hr : feedbackFieldEmpty (.parsed (.obj o)) =
          (match objLookup o "feedback" with
            | some (.str s) => s.isEmpty
            | _ => false) := rfl
      rw [hr]
      unfold normFeedback
      cases h : objLookup o "feedback" with
      | none => rfl
      | some w => cases w <;> rfl
    | null => rfl
    | bool b => rfl
    | num q => rfl
    | str s => rfl
    | arr l => rfl

/-!
## Claim theorems
-/

/-- C3, counterexample: on an empty store, a statement-time storage error
inside `get_classroom_students` (which has no `try`/`except`) propagates to
the caller, and a connect-time storage error propagates even from
`create_classroom` (whose `sqlite3.connect` runs before its `try`) —
contradicting the claim that every gateway operation catches every
storage-layer error and returns a neutral failure value. -/
theorem C3_counterexample :
    get_classroom_students (⟨[], [], [], 0⟩ : DBState) .queryFail "AB12" = .error () ∧
    create_classroom (⟨[], [], [], 0⟩ : DBState) .connectFail "AB12" "T-1" "Q"
      = .error () :=
  ⟨rfl, rfl⟩

/-- C3 (amended): for every store state, a storage-layer error raised
inside the `try` body (statement or commit time) is caught by every
gateway operation except `get_classroom_students`, which returns its
neutral failure value (`false` with the state unchanged, `none`, or the
empty collection) while `get_classroom_students` lets it propagate; but
every operation opens its connection before entering the `try`, so a
connect-time storage error propagates uncaught from all eight
operations. -/
theorem C3_amended (st : DBState) (sid code t q ans : String) (ev : Evaluation) :
    (create_classroom st .queryFail code t q = .ok (false, st) ∧
      add_student st .queryFail sid code = .ok (false, st) ∧
      save_answer st .queryFail sid code q ans ev = .ok (false, st) ∧
      update_classroom_question st .queryFail code q = .ok (false, st) ∧
      get_classroom_info st .queryFail code = .ok none ∧
      get_answers_for_question st .queryFail code q = .ok [] ∧
      get_classroom_data st .queryFail code = .ok [] ∧
      get_classroom_students st .queryFail code = .error ()) ∧
    (create_classroom st .connectFail code t q = .error () ∧
      add_student st .connectFail sid code = .error () ∧
      save_answer st .connectFail sid code q ans ev = .error () ∧
      update_classroom_question st .connectFail code q = .error () ∧
      get_classroom_info st .connectFail code = .error () ∧
      get_answers_for_question st .connectFail code q = .error () ∧
      get_classroom_data st .connectFail code = .error () ∧
      get_classroom_students st .connectFail code = .error ()) :=
  ⟨⟨rfl, rfl, rfl, rfl, rfl, rfl, rfl, rfl⟩, rfl, rfl, rfl, rfl, rfl, rfl, rfl, rfl⟩

/-- C5, counterexample: on the automatic poll path, when the fetched
question differs from the cached one the session transitions to the new
question, yet the cached evaluation result is retained, not reset. -/
theorem C5_counterexample :
    (pollQuestionCheck
        (⟨some "Why is X?", true, some ⟨1 / 2, "fb", ["s1", "s2", "s3"]⟩,
          some "http://v", some "vid-1", false, true⟩ : SessionState)
        (some (⟨"AB12", 0, "T-1", "Why is Y?", "active"⟩ : Classroom))).current_question
      = some "Why is Y?" ∧
    (pollQuestionCheck
        (⟨some "Why is X?", true, some ⟨1 / 2, "fb", ["s1", "s2", "s3"]⟩,
          some "http://v", some "vid-1", false, true⟩ : SessionState)
        (some (⟨"AB12", 0, "T-1", "Why is Y?", "active"⟩ : Classroom))).evaluation_result
      = some ⟨1 / 2, "fb", ["s1", "s2", "s3"]⟩ :=
  ⟨rfl, rfl⟩

/-- C5 (amended): on the automatic poll, a question differing by value from
the cached one makes the session adopt it and clear the answer-submitted
flag, video url, video request id, video-in-progress flag and video-form
flag — but the cached evaluation result is left unchanged; only the manual
Refresh-button path (which additionally requires a truthy question) also
resets the evaluation result. -/
theorem C5_amended (s : SessionState) (info : Classroom)
    (hdiff : some info.question ≠ s.current_question) :
    pollQuestionCheck s (some info) =
      { s with
        current_question := some info.question
        answer_submitted := false
        video_url := none
        video_request_id := none
        generating_video := false
        show_video_form := false } ∧
    (info.question.isEmpty = false →
      refreshQuestionCheck s (some info) =
        { s with
          current_question := some info.question
          answer_submitted := false
          evaluation_result := none
          video_url := none
          video_request_id := none
          generating_video := false
          show_video_form := false }) := by
  constructor
  · simp only [pollQuestionCheck, if_pos hdiff]
  · intro hq
    simp only [refreshQuestionCheck]
    rw [if_neg (by simp [hq]), if_pos hdiff]

/-- C5, witness for the amended theorem at a concrete session and snapshot. -/
theorem C5_amended_witness :
    pollQuestionCheck
        (⟨some "Q1", true, some ⟨1, "good", ["a", "b", "c"]⟩,
          some "http://v", some "vid-1", true, true⟩ : SessionState)
        (some (⟨"AB12", 0, "T-1", "Q2", "active"⟩ : Classroom)) =
      { (⟨some "Q1", true, some ⟨1, "good", ["a", "b", "c"]⟩,
          some "http://v", some "vid-1", true, true⟩ : SessionState) with
        current_question := some "Q2"
        answer_submitted := false
        video_url := none
        video_request_id := none
        generating_video := false
        show_video_form := false } ∧
    ((⟨"AB12", 0, "T-1", "Q2", "active"⟩ : Classroom).question.isEmpty = false →
      refreshQuestionCheck
          (⟨some "Q1", true, some ⟨1, "good", ["a", "b", "c"]⟩,
            some "http://v", some "vid-1", true, true⟩ : SessionState)
          (some (⟨"AB12", 0, "T-1", "Q2", "active"⟩ : Classroom)) =
        { (⟨some "Q1", true, some ⟨1, "good", ["a", "b", "c"]⟩,
            some "http://v", some "vid-1", true, true⟩ : SessionState) with
          current_question := some "Q2"
          answer_submitted := false
          evaluation_result := none
          video_url := none
          video_request_id := none
          generating_video := false
          show_video_form := false }) :=
  C5_amended _ _ (by decide)

/-- C7: starting from a store where the code is absent, the first
`create_classroom` returns true and appends the row with status `active`,
and the second call with the same code returns false and leaves the store
untouched. -/
theorem C7_create_twice (st : DBState) (code t1 q1 t2 q2 : String)
    (habs : countClass st code = 0) :
    match create_classroom st .ok code t1 q1 with
    | .ok (b1, st1) =>
      b1 = true ∧
      st1.classrooms = st.classrooms ++ [⟨code, st.clock, t1, q1, "active"⟩] ∧
      create_classroom st1 .ok code t2 q2 = .ok (false, st1)
    | .error _ => False := by
  have h1 : ¬ (0 < countClass st code) := by omega
  have hstep : create_classroom st .ok code t1 q1 = .ok (true,
      { st with
        classrooms := st.classrooms ++ [⟨code, st.clock, t1, q1, "active"⟩]
        clock := st.clock + 1 }) := by
    unfold create_classroom
    rw [if_neg okNeConnect, if_neg okNeQuery, if_neg h1]
  rw [hstep]
  refine ⟨rfl, rfl, ?_⟩
  have h2 : 0 < countClass
      { st with
        classrooms := st.classrooms ++ [⟨code, st.clock, t1, q1, "active"⟩]
        clock := st.clock + 1 } code := by
    simp [countClass, List.filter_append]
  unfold create_classroom
  rw [if_neg okNeConnect, if_neg okNeQuery, if_pos h2]

/-- C7, witness at a concrete empty store. -/
theorem C7_create_twice_witness :
    match create_classroom (⟨[], [], [], 0⟩ : DBState) .ok "AB12" "T-1" "Why is X?" with
    | .ok (b1, st1) =>
      b1 = true ∧
      st1.classrooms = [] ++ [⟨"AB12", 0, "T-1", "Why is X?", "active"⟩] ∧
      create_classroom st1 .ok "AB12" "T-2" "Why is Y?" = .ok (false, st1)
    | .error _ => False :=
  C7_create_twice (⟨[], [], [], 0⟩ : DBState) "AB12" "T-1" "Why is X?" "T-2" "Why is Y?" rfl

/-- C1, counterexample: the raw response text `{"feedback": ""}` parses to
an object whose `feedback` field is the empty string, and `evaluate_answer`
passes it through verbatim — the returned feedback is empty, contradicting
the claimed non-empty feedback for every input. -/
theorem C1_counterexample :
    (evaluate_answer (.parsed (.obj [("feedback", Json.str "")]))).feedback = "" := rfl

/-- C1 (amended): for every AI-response outcome, `evaluate_answer` returns
a score in [0,1] and exactly three non-empty suggestions; the feedback is a
string that is empty exactly when the response parsed to a JSON object
whose `feedback` field is literally the empty string (a present string
field is passed through verbatim; every other case yields one of the
non-empty defaults). -/
theorem C1_amended (r : AIResponse) :
    0 ≤ (evaluate_answer r).score ∧ (evaluate_answer r).score ≤ 1 ∧
    (evaluate_answer r).suggestions.length = 3 ∧
    (evaluate_answer r).suggestions.all (fun s => !s.isEmpty) = true ∧
    (evaluate_answer r).feedback.isEmpty = feedbackFieldEmpty r := by
  obtain ⟨hs1, hs2⟩ := evaluate_answer_score_bounds r
  obtain ⟨hl, hall⟩ := evaluate_answer_suggestions_good r
  refine ⟨hs1, hs2, hl, ?_, evaluate_answer_feedback r⟩
  rw [List.all_eq_true] at hall ⊢
  intro s hs
  have h := hall s hs
  simp only [cleanPred, Bool.and_eq_true] at h
  exact h.1.1

/-- C4, counterexample: `evaluate_answer` keeps a suggestion containing the
markup delimiters `<` and `>` (they are on no denylist), and
`get_simple_suggestions` applies no content filter at all, returning a
suggestion containing the denylisted phrase `click the refresh button`
verbatim. -/
theorem C4_counterexample :
    ("Add x<y> detail" ∈
        (evaluate_answer
          (.parsed (.obj [("suggestions", .arr [.str "Add x<y> detail"])]))).suggestions ∧
      "Add x<y> detail".data.contains '<' = true) ∧
    ("Please click the refresh button now" ∈
        get_simple_suggestions (.text "1. Please click the refresh button now") ∧
      hasDenyWord "Please click the refresh button now" = true) := by
  refine ⟨⟨?_, ?_⟩, ?_, ?_⟩ <;> decide

/-- C4 (amended): every suggestion returned by `evaluate_answer` is free of
the denylisted meta-instruction words (`script`, `refresh`, `student`,
`click`; case-insensitive substring match) and of the denylisted suspicious
characters; the markup delimiters `<` and `>` are not filtered and can
appear in the output (and the separate `get_simple_suggestions` path
applies no content filter at all). -/
theorem C4_amended (r : AIResponse) :
    (evaluate_answer r).suggestions.all
      (fun s => !(hasDenyWord s) && !(isSuspicious s)) = true := by
  have hall := (evaluate_answer_suggestions_good r).2
  rw [List.all_eq_true] at hall ⊢
  intro s hs
  have h := hall s hs
  simp only [cleanPred, Bool.and_eq_true] at h
  simp only [Bool.and_eq_true]
  exact ⟨h.2, h.1.2⟩

/-- C2, counterexample: on the empty suggestions list the AI-side filter
returns the three defaults while the storage-side re-validation returns the
empty list — the two functions are not extensionally equal. -/
theorem C2_counterexample : llmFilterSuggestions [] ≠ dbFilterSuggestions [] := by decide

/-- C2 (amended): the AI-side suggestion filter of `evaluate_answer`
(denylist, truncate to 3, pad with defaults) and the storage-side
re-validation of `get_answers_for_question` (keep every truthy element,
stringified, with no length bound) are different functions; they agree on
every list of exactly three non-empty, already-stripped string suggestions
that pass both denylists. -/
theorem C2_amended (l : List Json) (h1 : cleanStrList l = true) (h2 : l.length = 3) :
    llmFilterSuggestions l = dbFilterSuggestions l := by
  rcases l with _ | ⟨a, _ | ⟨b, _ | ⟨c, _ | ⟨d, t⟩⟩⟩⟩ <;> simp only [List.length] at h2
  · omega
  · omega
  · omega
  case cons.cons.cons.nil =>
    cases a with
    | str sa =>
      cases b with
      | str sb =>
        cases c with
        | str sc =>
          simp only [cleanStrList, Bool.and_eq_true, beq_iff_eq, Bool.and_true,
            Bool.not_eq_true'] at h1
          obtain ⟨⟨⟨⟨hsa, ha1⟩, ha2⟩, ha3⟩, ⟨⟨⟨hsb, hb1⟩, hb2⟩, hb3⟩,
            ⟨⟨hsc, hc1⟩, hc2⟩, hc3⟩ := h1
          have hclean :
              cleanSuggestions [Json.str sa, Json.str sb, Json.str sc] = [sa, sb, sc] := by
            simp [cleanSuggestions, hsa, hsb, hsc, ha1, ha2, ha3, hb1, hb2, hb3,
              hc1, hc2, hc3]
          have hdb :
              dbFilterSuggestions [Json.str sa, Json.str sb, Json.str sc] = [sa, sb, sc] := by
            simp [dbFilterSuggestions, pyTruthy, pyStr, ha1, hb1, hc1]
          unfold llmFilterSuggestions
          rw [hclean, hdb]
          rfl
        | null => simp [cleanStrList] at h1
        | bool x => simp [cleanStrList] at h1
        | num x => simp [cleanStrList] at h1
        | arr x => simp [cleanStrList] at h1
        | obj x => simp [cleanStrList] at h1
      | null => simp [cleanStrList] at h1
      | bool x => simp [cleanStrList] at h1
      | num x => simp [cleanStrList] at h1
      | arr x => simp [cleanStrList] at h1
      | obj x => simp [cleanStrList] at h1
    | null => simp [cleanStrList] at h1
    | bool x => simp [cleanStrList] at h1
    | num x => simp [cleanStrList] at h1
    | arr x => simp [cleanStrList] at h1
    | obj x => simp [cleanStrList] at h1
  case cons.cons.cons.cons => omega

/-- C2, witness for the amended theorem at a concrete clean 3-element
suggestion list. -/
theorem C2_amended_witness :
    llmFilterSuggestions
        [.str "Add one concrete example", .str "Explain the key term",
          .str "State a conclusion"]
      = dbFilterSuggestions
        [.str "Add one concrete example", .str "Explain the key term",
          .str "State a conclusion"] :=
  C2_amended _ (by decide) rfl

/-- C6: `add_student` returns false and leaves the store untouched when the
classroom code is absent or the classroom's status is not `active`, and a
student row is appended exactly when the call returns true (the classrooms
and answers tables are never touched). -/
theorem C6_add_student (st : DBState) (sid code : String) :
    match add_student st .ok sid code with
    | .ok (b, st2) =>
      (countClass st code = 0 → b = false ∧ st2 = st) ∧
      (∀ s, (st.classrooms.find? (fun r => r.class_code == code)).map Classroom.status
          = some s → s ≠ "active" → b = false ∧ st2 = st) ∧
      (b = true → st2.students = st.students ++ [⟨sid, code, st.clock⟩] ∧
        st2.classrooms = st.classrooms ∧ st2.answers = st.answers) ∧
      (b = false → st2 = st)
    | .error _ => False := by
  by_cases h0 : countClass st code = 0
  · have heq : add_student st .ok sid code = .ok (false, st) := by
      unfold add_student
      rw [if_neg okNeConnect, if_neg okNeQuery, if_pos h0]
    rw [heq]
    exact ⟨fun _ => ⟨rfl, rfl⟩, fun s _ _ => ⟨rfl, rfl⟩,
      fun h => absurd h (by simp), fun _ => rfl⟩
  · cases hf : st.classrooms.find? (fun r => r.class_code == code) with
    | none =>
      have heq : add_student st .ok sid code = .ok (false, st) := by
        unfold add_student
        rw [if_neg okNeConnect, if_neg okNeQuery, if_neg h0]
        simp only [hf]
      rw [heq]
      exact ⟨fun h => absurd h h0, fun s hs => by simp at hs,
        fun h => absurd h (by simp), fun _ => rfl⟩
    | some room =>
      by_cases hst : room.status = "active"
      · by_cases hdup : st.students.any (fun s => s.student_id == sid) = true
        · have heq : add_student st .ok sid code = .ok (false, st) := by
            unfold add_student
            rw [if_neg okNeConnect, if_neg okNeQuery, if_neg h0]
            simp only [hf]
            rw [if_neg (show ¬ (room.status ≠ "active") by simp [hst]), if_pos hdup]
          rw [heq]
          exact ⟨fun h => absurd h h0, fun s hs hne => ⟨rfl, rfl⟩,
            fun h => absurd h (by simp), fun _ => rfl⟩
        · have heq : add_student st .ok sid code = .ok (true,
              { st with
                students := st.students ++ [⟨sid, code, st.clock⟩]
                clock := st.clock + 1 }) := by
            unfold add_student
            rw [if_neg okNeConnect, if_neg okNeQuery, if_neg h0]
            simp only [hf]
            rw [if_neg (show ¬ (room.status ≠ "active") by simp [hst]), if_neg hdup]
          rw [heq]
          refine ⟨fun h => absurd h h0, fun s hs hne => ?_, fun _ => ⟨rfl, rfl, rfl⟩,
            fun h => absurd h (by simp)⟩
          simp only [Option.map_some', Option.some.injEq] at hs
          exact absurd (show s = "active" by rw [← hs]; exact hst) hne
      · have heq : add_student st .ok sid code = .ok (false, st) := by
          unfold add_student
          rw [if_neg okNeConnect, if_neg okNeQuery, if_neg h0]
          simp only [hf]
          rw [if_pos (show room.status ≠ "active" from hst)]
        rw [heq]
        exact ⟨fun h => absurd h h0, fun s hs hne => ⟨rfl, rfl⟩,
          fun h => absurd h (by simp), fun _ => rfl⟩

/-- C9: when the classroom exists and is `active` but the student id is
already present, the `UNIQUE(student_id)` violation (`IntegrityError`) is
caught inside `add_student`, which returns false with the store unchanged. -/
theorem C9_duplicate_student (st : DBState) (sid code : String) (room : Classroom)
    (hfind : st.classrooms.find? (fun r => r.class_code == code) = some room)
    (hactive : room.status = "active")
    (hdup : st.students.any (fun s => s.student_id == sid) = true) :
    add_student st .ok sid code = .ok (false, st) := by
  have hcount : ¬ countClass st code = 0 := by
    intro h0
    have hmem := List.mem_of_find?_eq_some hfind
    have hpred := List.find?_some hfind
    have hin : room ∈ st.classrooms.filter (fun r => r.class_code == code) :=
      List.mem_filter.mpr ⟨hmem, hpred⟩
    rw [List.length_eq_zero.mp h0] at hin
    exact absurd hin (List.not_mem_nil room)
  unfold add_student
  rw [if_neg okNeConnect, if_neg okNeQuery, if_neg hcount]
  simp only [hfind]
  rw [if_neg (show ¬ (room.status ≠ "active") by simp [hactive]), if_pos hdup]

/-- C9, witness: a concrete active classroom whose single student attempts
to join again. -/
theorem C9_duplicate_student_witness :
    add_student
        (⟨[⟨"AB12", 0, "T-1", "Q", "active"⟩], [⟨"S-1", "AB12", 0⟩], [], 1⟩ : DBState)
        .ok "S-1" "AB12"
      = .ok (false,
        (⟨[⟨"AB12", 0, "T-1", "Q", "active"⟩], [⟨"S-1", "AB12", 0⟩], [], 1⟩ : DBState)) :=
  C9_duplicate_student _ "S-1" "AB12" ⟨"AB12", 0, "T-1", "Q", "active"⟩ rfl rfl rfl

/-- C8: saving an answer with a well-formed evaluation (at most three
non-empty string suggestions) and reading the same classroom and question
back yields an entry with the identical answer text and exactly the stored
suggestions, of length at most 3 (the writer's student row must exist for
the read-back join to include the row). -/
theorem C8_roundtrip (st : DBState) (sid code q ans : String) (ev : Evaluation)
    (st2 : DBState) (views : List AnswerView)
    (hne : ev.suggestions.all (fun s => !s.isEmpty) = true)
    (hlen : ev.suggestions.length ≤ 3)
    (hstud : st.students.any (fun s => s.student_id == sid) = true)
    (hsave : save_answer st .ok sid code q ans ev = .ok (true, st2))
    (hget : get_answers_for_question st2 .ok code q = .ok views) :
    views.any (fun v => v.answer == ans && v.suggestions == ev.suggestions &&
      decide (v.suggestions.length ≤ 3)) = true := by
  unfold save_answer at hsave
  rw [if_neg okNeConnect, if_neg okNeQuery] at hsave
  simp only [Except.ok.injEq, Prod.mk.injEq, true_and] at hsave
  subst hsave
  unfold get_answers_for_question at hget
  rw [if_neg okNeConnect, if_neg okNeQuery] at hget
  simp only [Except.ok.injEq] at hget
  subst hget
  rw [List.any_eq_true]
  refine ⟨answerView ⟨sid, code, q, ans, ev.score, ev.feedback,
    .parsed (.arr (ev.suggestions.map Json.str)), st.clock⟩, ?_, ?_⟩
  · apply List.mem_map_of_mem
    rw [mem_sortDesc]
    refine List.mem_filter.mpr ⟨List.mem_filter.mpr ⟨?_, ?_⟩, ?_⟩
    · exact List.mem_append.mpr (.inr (List.mem_singleton.mpr rfl))
    · simp
    · exact hstud
  · have hsugg : processSugg (.parsed (.arr (ev.suggestions.map Json.str)))
        = ev.suggestions := by
      show dbFilterSuggestions (ev.suggestions.map Json.str) = ev.suggestions
      exact dbFilter_map_str _ hne
    simp [answerView, hsugg, hlen]

/-- C8, witness at a concrete store, student and evaluation. -/
theorem C8_roundtrip_witness :
    ([⟨"S-1", "my answer", 1 / 2, "Good start", ["Add examples", "Add depth"], 1⟩] :
        List AnswerView).any
      (fun v => v.answer == "my answer" &&
        v.suggestions == (⟨1 / 2, "Good start", ["Add examples", "Add depth"]⟩ :
          Evaluation).suggestions &&
        decide (v.suggestions.length ≤ 3)) = true :=
  C8_roundtrip
    (⟨[⟨"AB12", 0, "T-1", "Q", "active"⟩], [⟨"S-1", "AB12", 0⟩], [], 1⟩ : DBState)
    "S-1" "AB12" "Q" "my answer" ⟨1 / 2, "Good start", ["Add examples", "Add depth"]⟩
    (⟨[⟨"AB12", 0, "T-1", "Q", "active"⟩], [⟨"S-1", "AB12", 0⟩],
      [⟨"S-1", "AB12", "Q", "my answer", 1 / 2, "Good start",
        .parsed (.arr [.str "Add examples", .str "Add depth"]), 1⟩], 2⟩ : DBState)
    [⟨"S-1", "my answer", 1 / 2, "Good start", ["Add examples", "Add depth"], 1⟩]
    rfl (by decide) rfl rfl rfl

/-- C10: the storage-side re-validation of a stored suggestions payload
that parses as a JSON list keeps every truthy element, coerced to a string
via Python `str`, and drops every falsy element; non-string elements are
kept in stringified form (a stored `true` comes back as `"True"`), and no
upper bound of 3 is enforced — a stored 4-element list is returned whole by
`get_answers_for_question`. -/
theorem C10_db_revalidation :
    (∀ l : List Json, processSugg (.parsed (.arr l)) = (l.filter pyTruthy).map pyStr) ∧
    get_answers_for_question
        (⟨[], [⟨"S-1", "AB12", 0⟩],
          [⟨"S-1", "AB12", "Q", "ans", 1 / 2, "fb",
            .parsed (.arr [.bool true, .str "alpha", .str "beta", .str "gamma", .str ""]),
            0⟩], 1⟩ : DBState) .ok "AB12" "Q"
      = .ok [⟨"S-1", "ans", 1 / 2, "fb", ["True", "alpha", "beta", "gamma"], 0⟩] ∧
    3 < (["True", "alpha", "beta", "gamma"] : List String).length := by
  refine ⟨fun l => dbFilterSuggestions_eq l, ?_, by decide⟩
  rfl

end AiClassroom
